import Mathlib

/-!
Verification of the Customer Engagement Priority Engine
(`tech/generate_customer_alerts.py`).

The Python code is shallowly embedded: Python `float` arithmetic is
modelled by exact rational arithmetic over `ℚ`, Python `int` by `ℤ`/`ℕ`,
`datetime.date` by a day number in `ℤ` (date subtraction in Python yields
an exact day count, so this is faithful), `None` by `Option`, and Python's
`round(x, 2)` by `round2` below.  Substring tests (`"取消" in status`,
"换" in refund type, ...) are embedded by an executable substring search
on the character lists of the strings.
-/

namespace CustomerAlerts

/-- Substring test on character lists: does the list start with `n`? -/
def prefixAt : List Char → List Char → Bool
  | [], _ => true
  | _ :: _, [] => false
  | a :: as, b :: bs => a == b && prefixAt as bs

/-- Substring test on character lists: does `n` occur anywhere in the list? -/
def containsL (n : List Char) : List Char → Bool
  | [] => n.isEmpty
  | c :: cs => prefixAt n (c :: cs) || containsL n cs

/-- Embedding of Python's substring operator `needle in hay`. -/
def containsSub (needle hay : String) : Bool :=
  containsL needle.toList hay.toList

/-- A whitespace test for the embedding of Python's `str.strip()`. -/
def isSpaceChar (c : Char) : Bool :=
  c == ' ' || c == '\t' || c == '\n' || c == '\r'

/-- Embedding of Python's `str.strip()`: drop leading and trailing
whitespace (the texts the code strips are plain cell values, so ASCII
whitespace suffices). -/
def stripS (s : String) : String :=
  String.mk ((((s.toList.dropWhile isSpaceChar).reverse).dropWhile isSpaceChar).reverse)

/-- Embedding of Python's `round(x, 2)`: round `100·x` to the nearest
integer and divide by `100`.  (Python rounds half-to-even; `round` in
Mathlib rounds half-up.  The two agree except on exact half-cent ties,
which none of the theorems below touch.) -/
def round2 (x : ℚ) : ℚ := (round (100 * x) : ℤ) / 100

theorem round2_mono {x y : ℚ} (h : x ≤ y) : round2 x ≤ round2 y := by
  unfold round2
  have h100 : (100 : ℚ) * x + 1 / 2 ≤ 100 * y + 1 / 2 := by linarith
  have := Int.floor_mono h100
  rw [round_eq, round_eq]
  have hcast : ((⌊(100 : ℚ) * x + 1 / 2⌋ : ℤ) : ℚ) ≤ ((⌊(100 : ℚ) * y + 1 / 2⌋ : ℤ) : ℚ) := by
    exact_mod_cast this
  linarith

theorem round2_fix {x : ℚ} (n : ℤ) (h : (100 : ℚ) * x = n) : round2 x = x := by
  unfold round2
  rw [h, round_intCast]
  field_simp at h ⊢
  linarith

/-! ### TimeWindowAggregator (`compute_time_windows`, lines 1430–1454)

An order history entry is a `(order_date, net_amount)` pair; `today` is the
reference date.  The Python loop accumulates five trailing-window totals. -/

structure TimeWindows where
  days_30 : ℚ
  days_90 : ℚ
  prev_90 : ℚ
  days_180 : ℚ
  days_365 : ℚ
deriving Repr, DecidableEq

/-- One loop iteration of `compute_time_windows`: add the entry's net
amount to every window it falls into.  `prev_90` is the `elif` branch for
orders older than 90 days but within 180. -/
def timeWindowStep (today : ℤ) (w : TimeWindows) (e : ℤ × ℚ) : TimeWindows :=
  let orderDate := e.1
  let net := e.2
  { days_30 := if orderDate ≥ today - 30 then w.days_30 + net else w.days_30
    days_90 := if orderDate ≥ today - 90 then w.days_90 + net else w.days_90
    prev_90 :=
      if orderDate ≥ today - 90 then w.prev_90
      else if orderDate ≥ today - 180 then w.prev_90 + net
      else w.prev_90
    days_180 := if orderDate ≥ today - 180 then w.days_180 + net else w.days_180
    days_365 := if orderDate ≥ today - 365 then w.days_365 + net else w.days_365 }

/-- Embedding of `compute_time_windows`. -/
def computeTimeWindows (entries : List (ℤ × ℚ)) (today : ℤ) : TimeWindows :=
  entries.foldl (timeWindowStep today) ⟨0, 0, 0, 0, 0⟩

theorem timeWindows_foldl_invariant (today : ℤ) (entries : List (ℤ × ℚ)) :
    ∀ w : TimeWindows,
      (entries.foldl (timeWindowStep today) w).days_90
        + (entries.foldl (timeWindowStep today) w).prev_90
        - (entries.foldl (timeWindowStep today) w).days_180
      = w.days_90 + w.prev_90 - w.days_180 := by
  induction entries with
  | nil => intro w; simp
  | cons e rest ih =>
    intro w
    rw [List.foldl_cons, ih]
    simp only [timeWindowStep]
    split_ifs <;> first | ring1 | (exfalso; omega)

/-! ### ThresholdResolver (`build_alert_rows`, lines 1715–1724) -/

/-- Embedding of the long-term churn threshold: the max of the global
fallback (`max(1, churn_days)`), the category threshold
(`max(1, ceil(category_cycle × churn_multiplier))`) and, when a personal
cycle exists, `max(1, ceil(personalized_threshold))`. -/
def longTermThreshold (churnDays : ℤ) (categoryCycle churnMultiplier : ℚ)
    (personalizedThreshold : Option ℚ) : ℤ :=
  let fallbackThreshold := max 1 churnDays
  let categoryThreshold := max 1 ⌈categoryCycle * churnMultiplier⌉
  match personalizedThreshold with
  | some p => max (max fallbackThreshold categoryThreshold) (max 1 ⌈p⌉)
  | none => max fallbackThreshold categoryThreshold

/-- Embedding of the short-term threshold: `max(1, ceil(L / 2))`,
decremented to `L - 1` if it would otherwise reach `L` while `L > 1`. -/
def shortTermThreshold (longTerm : ℤ) : ℤ :=
  let short := max 1 ⌈(longTerm : ℚ) / 2⌉
  if short ≥ longTerm ∧ longTerm > 1 then longTerm - 1 else short

/-! ### OrderIngestor (`CustomerStats` and the `load_customers` row loop,
lines 1275–1590)

Identity resolution (name/phone/address header parsing) is outside the
claims; a `Row` carries the already-extracted cell values of one order
line for one customer, and `processRow` is the body of the
`load_customers` loop from the point where those cells are in hand. -/

/-- One retained drill-down record (`append_order_detail`).  Only the
fields the scoring code later reads back are kept: the refund-type text
(used for the exchange marker "换") and the gross/net amounts. -/
structure OrderDetail where
  refundType : String
  grossAmount : ℚ
  netAmount : ℚ
deriving Repr, DecidableEq

/-- Embedding of `CustomerStats` (identity display fields aside). -/
structure CustomerStats where
  owners : List String
  platforms : List String
  items : List String
  firstOrder : Option ℤ
  lastOrder : Option ℤ
  orders : ℕ
  grossTotal : ℚ
  netTotal : ℚ
  costTotal : ℚ
  profitTotal : ℚ
  refundAmount : ℚ
  refundCount : ℕ
  cancelCount : ℕ
  orderHistory : List (ℤ × ℚ)
  orderDetails : List OrderDetail
  address : Option String
deriving Repr, DecidableEq

/-- The empty statistics a customer starts from (`CustomerStats.__init__`). -/
def CustomerStats.init : CustomerStats :=
  ⟨[], [], [], none, none, 0, 0, 0, 0, 0, 0, 0, 0, [], [], none⟩

/-- Embedding of `CustomerStats.register_valid_order`. -/
def registerValidOrder (s : CustomerStats) (orderDate : Option ℤ)
    (gross net cost profit : ℚ)
    (item owner platform address : Option String) : CustomerStats :=
  let s := { s with
    orders := s.orders + 1
    grossTotal := s.grossTotal + gross
    netTotal := s.netTotal + net
    costTotal := s.costTotal + cost
    profitTotal := s.profitTotal + profit }
  let s := match orderDate with
    | some d =>
      { s with
        orderHistory := s.orderHistory ++ [(d, net)]
        firstOrder := match s.firstOrder with
          | none => some d
          | some f => some (if d < f then d else f)
        lastOrder := match s.lastOrder with
          | none => some d
          | some l => some (if d > l then d else l) }
    | none => s
  let s := match item with
    | some it => { s with items := s.items ++ [stripS it] }
    | none => s
  let s := match owner with
    | some ow => { s with owners := s.owners ++ [stripS ow] }
    | none => s
  let s := match platform with
    | some pl => { s with platforms := s.platforms ++ [stripS pl] }
    | none => s
  match address, s.address with
  | some ad, none => { s with address := some (stripS ad) }
  | _, _ => s

/-- Embedding of `CustomerStats.register_cancellation`. -/
def registerCancellation (s : CustomerStats) : CustomerStats :=
  { s with cancelCount := s.cancelCount + 1 }

/-- Embedding of `CustomerStats.register_refund` (always called with
`force=True` in `load_customers`). -/
def registerRefund (s : CustomerStats) (amount : ℚ) (force : Bool) : CustomerStats :=
  if amount > 0 then
    { s with refundAmount := s.refundAmount + amount, refundCount := s.refundCount + 1 }
  else if force then
    { s with refundCount := s.refundCount + 1 }
  else s

/-- The already-extracted cells of one input row.  `net = none` models a
missing 净收款 column (the code then falls back to the gross amount);
`costPresent` models a genuinely present 打款金额/成本 cell. -/
structure Row where
  status : Option String
  refundType : Option String
  refundStatus : Option String
  gross : ℚ
  net : Option ℚ
  costPresent : Bool
  cost : ℚ
  refundAmount : ℚ
  payDate : Option ℤ
  item : Option String
  owner : Option String
  platform : Option String
  address : Option String

/-- Embedding of the `load_customers` loop body for one row (lines
1521–1588): update the address, classify the row as cancellation vs.
valid order, append the drill-down detail, and register an eventual
refund event.  `math.isclose(net, 0.0)` with the default zero absolute
tolerance is exact equality with `0`. -/
def processRow (s : CustomerStats) (r : Row) : CustomerStats :=
  let s := match r.address, s.address with
    | some ad, none => { s with address := some (stripS ad) }
    | _, _ => s
  let status := match r.status with
    | some st => stripS st
    | none => ""
  let refundTypeText := match r.refundType with
    | some t => stripS t
    | none => ""
  let isCancelled := containsSub "取消" status || containsSub "取消" refundTypeText
  let gross := r.gross
  let net0 := match r.net with
    | some v => v
    | none => gross
  let net := if net0 = 0 ∧ gross > 0 then gross else net0
  let cost := if r.costPresent then r.cost else 0
  let profit := if r.costPresent then (if net > 0 then net else gross) - cost else 0
  let detail : OrderDetail :=
    { refundType := match r.refundType with
        | some t => stripS t
        | none => match r.refundStatus with
          | some st => stripS st
          | none => ""
      grossAmount := gross
      netAmount := net }
  let s := { s with orderDetails := s.orderDetails ++ [detail] }
  let s :=
    if isCancelled || gross ≤ 0 then registerCancellation s
    else registerValidOrder s r.payDate gross net cost profit r.item r.owner r.platform r.address
  let refundEvent :=
    r.refundAmount > 0
    || (match r.refundStatus with
        | some st => !(st == "") && containsSub "退" st
        | none => false)
    || (!(refundTypeText == "") && containsSub "退" refundTypeText)
  if refundEvent then registerRefund s r.refundAmount true else s

/-! ### PriorityScorer building blocks (`build_alert_rows`, lines 1765–1984) -/

/-- Embedding of the return-rate derivation (lines 1765–1769):
`min(refund_count / max(orders, 1), 1.0)` when at least one valid order,
`1.0` when refunds but no orders, undefined otherwise. -/
def returnRateOf (orders refundCount : ℕ) : Option ℚ :=
  if orders > 0 then some (min ((refundCount : ℚ) / max (orders : ℚ) 1) 1)
  else if refundCount > 0 then some 1
  else none

/-- Embedding of the refund-spike ("退货激增") tag condition
(lines 1752–1755). -/
def refundSpikeTag (refundAmount netTotal : ℚ) (refundCount : ℕ) : Bool :=
  refundAmount > 0 && netTotal > 0
    && (refundAmount / max netTotal 1 ≥ 3 / 10 || refundCount ≥ 2)

/-- `return_rate is None or return_rate < x`, the recurring guard of the
VIP-style conditions. -/
def rrNoneOrLt (returnRate : Option ℚ) (x : ℚ) : Bool :=
  match returnRate with
  | none => true
  | some r => r < x

/-- Embedding of the exchange ("换") counter over the retained order
details (lines 1830–1835 and `calculate_timing_boost` lines 867–873). -/
def exchangeCount (details : List OrderDetail) : ℕ :=
  details.countP (fun d => containsSub "换" (stripS d.refundType))

/-- Embedding of the exchange penalty (lines 1842–1854), keyed on the
number of valid orders left after excluding exchange-type lines. -/
def exchangePenalty (orders : ℕ) (details : List OrderDetail) : ℤ :=
  let ec := exchangeCount details
  let effectiveOrders : ℤ := (orders : ℤ) - ec
  if ec > 0 then
    if effectiveOrders < 2 then -200
    else if effectiveOrders = 2 then -100
    else if effectiveOrders ≤ 4 then -50
    else 0
  else 0

/-- Embedding of the tiered super-VIP boost (lines 1936–1945). -/
def superVipBoost (orders : ℕ) (returnRate : Option ℚ) : ℤ :=
  if orders ≥ 10 ∧ rrNoneOrLt returnRate (1 / 5) then 80
  else if orders ≥ 7 ∧ rrNoneOrLt returnRate (3 / 20) then 60
  else if orders ≥ 5 ∧ rrNoneOrLt returnRate (1 / 10) then 40
  else 0

/-! ### Segmenter (`classify_customer_list`, lines 940–996)

The Python signature also receives `personal_cycle_days`,
`avg_order_value` and `top_platform`, which the function body never
reads; those dead parameters are dropped here. -/

/-- `return_rate is not None and return_rate > x`. -/
def rrSomeGt (returnRate : Option ℚ) (x : ℚ) : Bool :=
  match returnRate with
  | none => false
  | some r => r > x

/-- `days_since is not None and days_since < x`. -/
def dsSomeLt (daysSince : Option ℤ) (x : ℤ) : Bool :=
  match daysSince with
  | none => false
  | some d => d < x

/-- `days_since is not None and lo ≤ days_since ≤ hi`. -/
def dsSomeBetween (daysSince : Option ℤ) (lo hi : ℤ) : Bool :=
  match daysSince with
  | none => false
  | some d => lo ≤ d && d ≤ hi

/-- Embedding of `classify_customer_list`, evaluated in the source's
strict precedence order. -/
def classifyCustomerList (orders : ℕ) (returnRate : Option ℚ)
    (potentialLabel : String) (daysSince : Option ℤ) (netTotal : ℚ)
    (tagsText : String) (priorityScore : ℚ) (longTermThreshold : ℤ) : String :=
  if containsSub "退货激增" tagsText then "高风险待排查"
  else if rrSomeGt returnRate (2 / 5) && priorityScore ≥ 50 then "高风险待排查"
  else if orders ≥ 7 && rrNoneOrLt returnRate (1 / 5) then "超级VIP"
  else if netTotal ≥ 2000 && orders ≥ 5 && rrNoneOrLt returnRate (1 / 4) then "超级VIP"
  else if priorityScore ≥ 200 && orders ≥ 5 then "超级VIP"
  else if potentialLabel == "明星客户" && orders ≥ 5 then "超级VIP"
  else if dsSomeLt daysSince 90 && orders ≥ 2 && rrNoneOrLt returnRate (3 / 10) then "活跃培养"
  else if dsSomeBetween daysSince 90 (longTermThreshold * 3)
      && (orders ≥ 3 || netTotal ≥ 1000) && rrNoneOrLt returnRate (1 / 2) then "濒临流失"
  else "活跃培养"

/-! ### UpliftEstimator (`estimate_uplift`, lines 720–814) -/

/-- The `base`/`floor`/`ceiling` triple from `ConfigModel.uplift_params`. -/
structure UpliftParams where
  base : ℚ
  floor : ℚ
  ceiling : ℚ
deriving Repr, DecidableEq

/-- Embedding of the VIP detection block of `estimate_uplift`
(lines 753–770).  The branches form an `elif` chain on the order count,
so only one order-count tier is ever examined. -/
def isVip (orders : Option ℤ) (returnRate : Option ℚ) (avgOrderValue : ℚ) : Bool :=
  match orders with
  | none => false
  | some o =>
    if o ≥ 7 then
      match returnRate with
      | some r => r < 1 / 5
      | none => true
    else if o ≥ 5 then
      match returnRate with
      | some r => r < 1 / 10 && avgOrderValue > 400
      | none => false
    else if o ≥ 3 && avgOrderValue > 500 then
      match returnRate with
      | some r => r < 3 / 20
      | none => true
    else false

/-- The VIP recency multipliers of `estimate_uplift` (lines 773–786). -/
def vipMultiplier (daysSince : ℤ) : ℚ :=
  if daysSince ≤ 30 then 9 / 10
  else if daysSince ≤ 90 then 11 / 10
  else if daysSince ≤ 180 then 19 / 20
  else 4 / 5

/-- The non-VIP "golden window" multipliers of `estimate_uplift`
(lines 787–812). -/
def goldenWindowMultiplier (daysSince : ℤ) : ℚ :=
  if daysSince ≤ 30 then 7 / 10
  else if daysSince ≤ 90 then 13 / 10 + ((daysSince : ℚ) - 30) / 60 * (1 / 5)
  else if daysSince ≤ 180 then 3 / 2 - ((daysSince : ℚ) - 90) / 90 * (7 / 10)
  else 1 / 2

/-- The uplift floor after the loyal-customer raise of lines 735–736:
customers with 3 or more orders get a floor of at least 1. -/
def effectiveFloor (params : UpliftParams) (orders : Option ℤ) : ℚ :=
  if (match orders with
      | some o => decide (o ≥ 3)
      | none => false) then max params.floor 1 else params.floor

/-- The uplift ceiling after merging an eventual category/premium extra
ceiling (lines 738–744), raised to the floor when the two cross. -/
def effectiveCeiling (params : UpliftParams) (extraCeiling : Option ℚ)
    (orders : Option ℤ) : ℚ :=
  let floor0 := effectiveFloor params orders
  let ceil0 := match extraCeiling with
    | some c => min params.ceiling c
    | none => params.ceiling
  if ceil0 < floor0 then floor0 else ceil0

/-- Embedding of `estimate_uplift`. -/
def estimateUplift (daysSince : Option ℤ) (threshold : Option ℤ)
    (params : UpliftParams) (extraCeiling : Option ℚ)
    (orders : Option ℤ) (returnRate : Option ℚ) (avgOrderValue : ℚ) : ℚ :=
  let floor0 := effectiveFloor params orders
  let ceil1 := effectiveCeiling params extraCeiling orders
  match daysSince, threshold with
  | some ds, some t =>
    if t ≤ 0 then max floor0 (min ceil1 params.base)
    else
      let ratio := (ds : ℚ) / ((max t 1 : ℤ) : ℚ)
      let uplift := params.base + max 0 (ratio - 1)
      let uplift :=
        if isVip orders returnRate avgOrderValue then uplift * vipMultiplier ds
        else uplift * goldenWindowMultiplier ds
      max floor0 (min ceil1 uplift)
  | _, _ => max floor0 (min ceil1 params.base)

/-! ### TimingWindowBooster (`calculate_timing_boost`, lines 817–908)

`math.exp` is an external real-valued primitive; the embedding takes the
exponential as an explicit function parameter `expF`, and each theorem
states the facts it needs about it (here only `expF 0 = 1`). -/

/-- The `timing_window_boost` block of `ConfigModel`. -/
structure TimingParams where
  enabled : Bool
  windowPercentage : ℚ
  peakBoost : ℚ
  minOrders : ℤ
  maxReturnRate : ℚ
  gaussianK : ℚ
deriving Repr, DecidableEq

/-- Embedding of `calculate_timing_boost`. -/
def calculateTimingBoost (expF : ℚ → ℚ) (daysSince : Option ℤ)
    (personalCycleDays : Option ℚ) (orders : ℕ) (details : List OrderDetail)
    (returnRate : Option ℚ) (p : TimingParams) : ℚ :=
  if !p.enabled then 0
  else match daysSince, personalCycleDays with
  | some ds, some cyc =>
    if (orders : ℤ) < p.minOrders then 0
    else
      let ec := exchangeCount details
      let effectiveOrders : ℤ := (orders : ℤ) - ec
      if effectiveOrders < p.minOrders then 0
      else if ec > 0 then 0
      else if rrSomeGt returnRate p.maxReturnRate then 0
      else
        let windowRadius := cyc * p.windowPercentage
        let lowerBound := cyc - windowRadius
        let upperBound := cyc + windowRadius
        if (ds : ℚ) < lowerBound ∨ (ds : ℚ) > upperBound then 0
        else
          let distanceFromCenter := |(ds : ℚ) - cyc|
          let normalizedDistance :=
            if windowRadius > 0 then distanceFromCenter / windowRadius else 0
          round2 (p.peakBoost * expF (-p.gaussianK * normalizedDistance ^ 2))
  | _, _ => 0

/-! ### Priority-score clamp (`ConfigModel.priority_bounds` lines 655–658
and `build_alert_rows` lines 1978–1984) -/

/-- Embedding of `ConfigModel.priority_bounds`: normalize the configured
bounds so the lower one comes first. -/
def priorityBounds (priorityMin priorityMax : ℚ) : ℚ × ℚ :=
  (min priorityMin priorityMax, max priorityMin priorityMax)

/-- The clamped (pre-rounding) priority score of lines 1980–1982:
`min(upper, max(lower, base×confidence + total_boost))`. -/
def clampedPriority (priorityMin priorityMax preWeight ordersWeight totalBoost : ℚ) : ℚ :=
  let bounds := priorityBounds priorityMin priorityMax
  min bounds.2 (max bounds.1 (preWeight * ordersWeight + totalBoost))

/-- The final emitted priority score of line 1983: the clamped value
rounded to two decimals. -/
def finalPriorityScore (priorityMin priorityMax preWeight ordersWeight totalBoost : ℚ) : ℚ :=
  round2 (clampedPriority priorityMin priorityMax preWeight ordersWeight totalBoost)

/-! ### ActionListBuilder (`build_alert_rows`, lines 2073–2230)

`actionDecision` is the per-customer tail of the `build_alert_rows` loop:
the "all"-scope cooldown pre-filter, the inclusion triggers, the no-reply
exclusion, the "action"-scope cooldown demotion, the eligibility filters
and the customer-list assignment.  It returns `none` when the customer is
kept out of `action_rows` (a `continue` in the source) and
`some customer_list` for the appended row.  The single-order policy
(`config_model.allow_single_order`, a calendar computation) enters as the
boolean `singleOrderOk`. -/

/-- Embedding of the inclusion triggers (lines 2092–2103). -/
def includeInAction (tags : List String) (anniversaryOnly anniversaryMatch : Bool)
    (potentialLabel : String) (priorityScore : ℚ) (orders : ℕ)
    (growthType : String) : Bool :=
  if !tags.isEmpty && !(anniversaryOnly && !anniversaryMatch) then true
  else if potentialLabel == "明星客户" || potentialLabel == "潜力客户" then true
  else if priorityScore ≥ 50 then true
  else if orders ≥ 5 then true
  else growthType == "成长型" || growthType == "高潜新客"

/-- The loop tail from the inclusion triggers on (lines 2092–2167). -/
def actionDecisionCore (cooldownDays : ℤ) (lastContact : Option ℤ) (today : ℤ)
    (replyFlag : Option Bool) (tags : List String)
    (anniversaryOnly anniversaryMatch : Bool) (potentialLabel : String)
    (priorityScore : ℚ) (orders : ℕ) (growthType : String)
    (daysSince : Option ℤ) (excludeRecentDays : ℤ) (allowHighReturn : Bool)
    (returnRate : Option ℚ) (singleOrderOk : Bool) (longTermThreshold : ℤ)
    (netTotal : ℚ) : Option String :=
  if !includeInAction tags anniversaryOnly anniversaryMatch potentialLabel
      priorityScore orders growthType then none
  else if lastContact.isSome && replyFlag == some false then none
  else
    let inCooldown :=
      match lastContact with
      | some lc => cooldownDays > 0 && max 0 (today - lc) < cooldownDays
      | none => false
    if inCooldown then some "冷却期"
    else if dsSomeLt daysSince (max 0 excludeRecentDays) then none
    else if !allowHighReturn && (match returnRate with
        | some r => decide (r ≥ 49 / 100)
        | none => false) then none
    else if orders = 1 && !singleOrderOk then none
    else if !(potentialLabel == "明星客户") && (match daysSince with
        | some d => decide (d > longTermThreshold * 3)
        | none => false) then none
    else
      some (classifyCustomerList orders returnRate potentialLabel daysSince
        netTotal (String.intercalate ", " tags) priorityScore longTermThreshold)

/-- Embedding of the whole per-customer action decision, including the
"all"-scope cooldown pre-filter of lines 2073–2090. -/
def actionDecision (cooldownScope : String) (cooldownDaysRaw : ℤ)
    (lastContact : Option ℤ) (today : ℤ) (replyFlag : Option Bool)
    (tags : List String) (anniversaryOnly anniversaryMatch : Bool)
    (potentialLabel : String) (priorityScore : ℚ) (orders : ℕ)
    (growthType : String) (daysSince : Option ℤ) (excludeRecentDays : ℤ)
    (allowHighReturn : Bool) (returnRate : Option ℚ) (singleOrderOk : Bool)
    (longTermThreshold : ℤ) (netTotal : ℚ) : Option String :=
  let cooldownDays := max 0 cooldownDaysRaw
  let core := actionDecisionCore cooldownDays lastContact today replyFlag tags
    anniversaryOnly anniversaryMatch potentialLabel priorityScore orders
    growthType daysSince excludeRecentDays allowHighReturn returnRate
    singleOrderOk longTermThreshold netTotal
  match lastContact with
  | some lc =>
    if cooldownScope == "all" && cooldownDays > 0 then
      if replyFlag == some false then none
      else if max 0 (today - lc) < cooldownDays then none
      else core
    else core
  | none => core

/-! ### Final ordering (`action_sort_key`, lines 2222–2229)

Python's `list.sort(key=action_sort_key)` sorts by the key tuple
`(-score, -orders, return_rate or 1.1, -(aov or 0))`; `insertionSort` by
the induced lexicographic order is a faithful (stable) model. -/

/-- The sort-relevant fields of one `action_rows` entry. -/
structure ActionRow where
  priorityScoreRaw : ℚ
  orders : ℤ
  returnRate : Option ℚ
  aov : Option ℚ
deriving Repr, DecidableEq

/-- `entry["return_rate"]` as used by `action_sort_key`: an undefined
rate becomes the sentinel `1.1`. -/
def rateSortValue (returnRate : Option ℚ) : ℚ :=
  match returnRate with
  | some r => r
  | none => 11 / 10

/-- `entry["aov"]` as used by `action_sort_key`: an undefined average
order value becomes `0.0`. -/
def aovSortValue (aov : Option ℚ) : ℚ :=
  match aov with
  | some v => v
  | none => 0

/-- Embedding of `action_sort_key`. -/
def actionSortKey (e : ActionRow) : ℚ × ℚ × ℚ × ℚ :=
  (-e.priorityScoreRaw, -(e.orders : ℚ), rateSortValue e.returnRate,
    -(aovSortValue e.aov))

/-- Lexicographic order on the 4-component sort keys. -/
def lexLe4 (p q : ℚ × ℚ × ℚ × ℚ) : Prop :=
  p.1 < q.1 ∨ (p.1 = q.1 ∧ (p.2.1 < q.2.1 ∨ (p.2.1 = q.2.1
    ∧ (p.2.2.1 < q.2.2.1 ∨ (p.2.2.1 = q.2.2.1 ∧ p.2.2.2 ≤ q.2.2.2)))))

/-- The comparison `action_sort_key(a) ≤ action_sort_key(b)` that
`list.sort` orders by. -/
def keyLE (a b : ActionRow) : Prop := lexLe4 (actionSortKey a) (actionSortKey b)

instance : DecidableRel keyLE := fun a b => by
  unfold keyLE lexLe4; infer_instance

instance : IsTotal ActionRow keyLE := by
  constructor
  intro a b
  unfold keyLE lexLe4
  rcases lt_trichotomy (actionSortKey a).1 (actionSortKey b).1 with h | h | h
  · exact Or.inl (Or.inl h)
  · rcases lt_trichotomy (actionSortKey a).2.1 (actionSortKey b).2.1 with h2 | h2 | h2
    · exact Or.inl (Or.inr ⟨h, Or.inl h2⟩)
    · rcases lt_trichotomy (actionSortKey a).2.2.1 (actionSortKey b).2.2.1 with h3 | h3 | h3
      · exact Or.inl (Or.inr ⟨h, Or.inr ⟨h2, Or.inl h3⟩⟩)
      · rcases le_total (actionSortKey a).2.2.2 (actionSortKey b).2.2.2 with h4 | h4
        · exact Or.inl (Or.inr ⟨h, Or.inr ⟨h2, Or.inr ⟨h3, h4⟩⟩⟩)
        · exact Or.inr (Or.inr ⟨h.symm, Or.inr ⟨h2.symm, Or.inr ⟨h3.symm, h4⟩⟩⟩)
      · exact Or.inr (Or.inr ⟨h.symm, Or.inr ⟨h2.symm, Or.inl h3⟩⟩)
    · exact Or.inr (Or.inr ⟨h.symm, Or.inl h2⟩)
  · exact Or.inr (Or.inl h)

instance : IsTrans ActionRow keyLE := by
  constructor
  intro a b c hab hbc
  unfold keyLE lexLe4 at *
  rcases hab with h1 | ⟨e1, h1⟩
  · rcases hbc with h2 | ⟨e2, _⟩
    · exact Or.inl (h1.trans h2)
    · exact Or.inl (e2 ▸ h1)
  · rcases hbc with h2 | ⟨e2, h2⟩
    · exact Or.inl (e1 ▸ h2)
    · refine Or.inr ⟨e1.trans e2, ?_⟩
      rcases h1 with h1 | ⟨f1, h1⟩
      · rcases h2 with h2 | ⟨f2, _⟩
        · exact Or.inl (h1.trans h2)
        · exact Or.inl (f2 ▸ h1)
      · rcases h2 with h2 | ⟨f2, h2⟩
        · exact Or.inl (f1 ▸ h2)
        · refine Or.inr ⟨f1.trans f2, ?_⟩
          rcases h1 with h1 | ⟨g1, h1⟩
          · rcases h2 with h2 | ⟨g2, _⟩
            · exact Or.inl (h1.trans h2)
            · exact Or.inl (g2 ▸ h1)
          · rcases h2 with h2 | ⟨g2, h2⟩
            · exact Or.inl (g1 ▸ h2)
            · exact Or.inr ⟨g1.trans g2, h1.trans h2⟩

/-- Embedding of `action_rows.sort(key=action_sort_key)`. -/
def sortActionRows (rows : List ActionRow) : List ActionRow :=
  rows.insertionSort keyLE

/-- The ordering the specification describes: score descending, then
order count descending, then return rate ascending with an undefined
rate after every defined one, then average order value descending. -/
def specOrder (a b : ActionRow) : Prop :=
  b.priorityScoreRaw < a.priorityScoreRaw
  ∨ (a.priorityScoreRaw = b.priorityScoreRaw
    ∧ (b.orders < a.orders
      ∨ (a.orders = b.orders
        ∧ ((match a.returnRate, b.returnRate with
            | some r, some s => r < s
            | some _, none => True
            | none, _ => False)
          ∨ (rateSortValue a.returnRate = rateSortValue b.returnRate
            ∧ aovSortValue b.aov ≤ aovSortValue a.aov)))))

/-! ## Claims -/

/-- C10: for every order history and reference date, the time-window sums
of `compute_time_windows` satisfy `days_90 + prev_90 = days_180`: every
order in the 180-day window lands in exactly one of the two 90-day
buckets, so the 180-day total is exactly partitioned. -/
theorem timeWindows_90_prev90_partition_180 (entries : List (ℤ × ℚ)) (today : ℤ) :
    (computeTimeWindows entries today).days_90
      + (computeTimeWindows entries today).prev_90
      = (computeTimeWindows entries today).days_180 := by
  have h := timeWindows_foldl_invariant today entries ⟨0, 0, 0, 0, 0⟩
  unfold computeTimeWindows
  simp only at h
  linarith

theorem shortTermThreshold_lt (longTerm : ℤ) (h : 1 < longTerm) :
    shortTermThreshold longTerm < longTerm := by
  have h2 : (2 : ℚ) ≤ (longTerm : ℚ) := by exact_mod_cast h
  have hceil : ⌈(longTerm : ℚ) / 2⌉ ≤ longTerm - 1 := by
    rw [Int.ceil_le]
    push_cast
    linarith
  have hs : max 1 ⌈(longTerm : ℚ) / 2⌉ ≤ longTerm - 1 := max_le (by omega) hceil
  simp only [shortTermThreshold]
  split_ifs <;> omega

/-- C8: whenever the computed long-term threshold exceeds 1, the computed
short-term threshold (half the long-term value rounded up, floored at 1,
decremented if it would reach the long-term value) is strictly below it. -/
theorem shortTerm_lt_longTerm (churnDays : ℤ) (categoryCycle churnMultiplier : ℚ)
    (personalizedThreshold : Option ℚ)
    (h : 1 < longTermThreshold churnDays categoryCycle churnMultiplier personalizedThreshold) :
    shortTermThreshold
        (longTermThreshold churnDays categoryCycle churnMultiplier personalizedThreshold)
      < longTermThreshold churnDays categoryCycle churnMultiplier personalizedThreshold :=
  shortTermThreshold_lt _ h

/-- Witness for C8 at `churn_days = 45`, `category_cycle = 60`,
`churn_multiplier = 1.5`, no personal cycle. -/
theorem shortTerm_lt_longTerm_witness :
    1 < longTermThreshold 45 60 (3 / 2) none
    ∧ shortTermThreshold (longTermThreshold 45 60 (3 / 2) none)
        < longTermThreshold 45 60 (3 / 2) none := by
  have h : 1 < longTermThreshold 45 60 (3 / 2) none := by
    unfold longTermThreshold
    have hc : ((60 : ℚ) * (3 / 2)) = ((90 : ℤ) : ℚ) := by norm_num
    rw [hc, Int.ceil_intCast]
    simp
  exact ⟨h, shortTerm_lt_longTerm 45 60 (3 / 2) none h⟩

/-- C3: a customer with exactly 2 valid orders of which 1 detail line is
an exchange (refund-type text containing "换") has effective order count
1 and receives the harshest exchange penalty, −200. -/
theorem exchangePenalty_two_orders_one_exchange (details : List OrderDetail)
    (h : exchangeCount details = 1) :
    ((2 : ℤ) - (exchangeCount details : ℤ) = 1) ∧ exchangePenalty 2 details = -200 := by
  unfold exchangePenalty
  rw [h]
  norm_num

/-- Witness for C3: a two-order customer whose first detail line carries
refund type "换货" (exchange) and whose second carries none. -/
theorem exchangePenalty_two_orders_one_exchange_witness :
    exchangeCount [⟨"换货", 100, 100⟩, ⟨"", 50, 50⟩] = 1
    ∧ ((2 : ℤ) - (exchangeCount [⟨"换货", 100, 100⟩, ⟨"", 50, 50⟩] : ℤ) = 1)
    ∧ exchangePenalty 2 [⟨"换货", 100, 100⟩, ⟨"", 50, 50⟩] = -200 := by
  have h : exchangeCount [⟨"换货", 100, 100⟩, ⟨"", 50, 50⟩] = 1 := by decide
  exact ⟨h, exchangePenalty_two_orders_one_exchange _ h⟩

/-- C7: a row whose gross amount is ≤ 0 (with or without a cancellation
marker) is processed as a cancellation: the cancellation count goes up by
one and one detail record is appended, while the valid-order count, the
gross/net/cost/profit totals, the order history and the first/last order
dates are unchanged. -/
theorem processRow_nonpositive_gross_frame (s : CustomerStats) (r : Row)
    (h : r.gross ≤ 0) :
    (processRow s r).orders = s.orders
    ∧ (processRow s r).grossTotal = s.grossTotal
    ∧ (processRow s r).netTotal = s.netTotal
    ∧ (processRow s r).costTotal = s.costTotal
    ∧ (processRow s r).profitTotal = s.profitTotal
    ∧ (processRow s r).orderHistory = s.orderHistory
    ∧ (processRow s r).firstOrder = s.firstOrder
    ∧ (processRow s r).lastOrder = s.lastOrder
    ∧ (processRow s r).cancelCount = s.cancelCount + 1
    ∧ ∃ d, (processRow s r).orderDetails = s.orderDetails ++ [d] := by
  obtain ⟨ow, pl, it, fo, lo, od, gt, nt, ct, pt, ra, rc, cc, oh, odet, addr⟩ := s
  obtain ⟨st, rt, rs, g, n, cp, c, rfa, pd, itm, own, plat, ad⟩ := r
  have hg : decide (g ≤ 0) = true := by simpa using h
  unfold processRow
  simp only [hg, Bool.or_true, if_true]
  cases ad <;> cases addr <;>
    simp only [registerCancellation, registerRefund] <;>
    split_ifs <;> simp

/-- Witness for C7: a row with gross amount 0 and no cancellation marker,
processed against the empty statistics. -/
theorem processRow_nonpositive_gross_frame_witness :
    (0 : ℚ) ≤ 0
    ∧ ((processRow CustomerStats.init
          ⟨some "已发货", none, none, 0, some 0, false, 0, 0, some 100,
            some "item", none, none, none⟩).orders = CustomerStats.init.orders
      ∧ (processRow CustomerStats.init
          ⟨some "已发货", none, none, 0, some 0, false, 0, 0, some 100,
            some "item", none, none, none⟩).grossTotal = CustomerStats.init.grossTotal
      ∧ (processRow CustomerStats.init
          ⟨some "已发货", none, none, 0, some 0, false, 0, 0, some 100,
            some "item", none, none, none⟩).netTotal = CustomerStats.init.netTotal
      ∧ (processRow CustomerStats.init
          ⟨some "已发货", none, none, 0, some 0, false, 0, 0, some 100,
            some "item", none, none, none⟩).costTotal = CustomerStats.init.costTotal
      ∧ (processRow CustomerStats.init
          ⟨some "已发货", none, none, 0, some 0, false, 0, 0, some 100,
            some "item", none, none, none⟩).profitTotal = CustomerStats.init.profitTotal
      ∧ (processRow CustomerStats.init
          ⟨some "已发货", none, none, 0, some 0, false, 0, 0, some 100,
            some "item", none, none, none⟩).orderHistory = CustomerStats.init.orderHistory
      ∧ (processRow CustomerStats.init
          ⟨some "已发货", none, none, 0, some 0, false, 0, 0, some 100,
            some "item", none, none, none⟩).firstOrder = CustomerStats.init.firstOrder
      ∧ (processRow CustomerStats.init
          ⟨some "已发货", none, none, 0, some 0, false, 0, 0, some 100,
            some "item", none, none, none⟩).lastOrder = CustomerStats.init.lastOrder
      ∧ (processRow CustomerStats.init
          ⟨some "已发货", none, none, 0, some 0, false, 0, 0, some 100,
            some "item", none, none, none⟩).cancelCount = CustomerStats.init.cancelCount + 1
      ∧ ∃ d, (processRow CustomerStats.init
          ⟨some "已发货", none, none, 0, some 0, false, 0, 0, some 100,
            some "item", none, none, none⟩).orderDetails
            = CustomerStats.init.orderDetails ++ [d]) :=
  ⟨le_refl 0, processRow_nonpositive_gross_frame CustomerStats.init _ (le_refl 0)⟩

/-- C2, counterexample: a customer with exactly 10 valid orders, return
rate 0.1 (one refund among ten orders) and no exchange lines can carry
the refund-spike tag "退货激增" (here: a 300-unit refund against a
900-unit net total), and the segmenter then returns "高风险待排查", not
"超级VIP" — even though `super_vip_boost = 80` is indeed applied. -/
theorem classify_superVip_counterexample :
    returnRateOf 10 1 = some (1 / 10)
    ∧ refundSpikeTag 300 900 1 = true
    ∧ superVipBoost 10 (returnRateOf 10 1) = 80
    ∧ classifyCustomerList 10 (returnRateOf 10 1) "普通客户" (some 10) 900
        "退货激增" 100 60 = "高风险待排查" := by
  have hrr : returnRateOf 10 1 = some (1 / 10) := by
    unfold returnRateOf
    norm_num
  refine ⟨hrr, ?_, ?_, ?_⟩
  · unfold refundSpikeTag
    norm_num
  · rw [hrr]
    unfold superVipBoost rrNoneOrLt
    norm_num
  · unfold classifyCustomerList
    have hc : containsSub "退货激增" "退货激增" = true := by decide
    rw [hc]
    simp

/-- C2, amended: a customer with exactly 10 valid orders, return rate 0.1
and no exchange lines gets `super_vip_boost = 80`, and — provided the
customer does not carry the refund-spike tag "退货激增" (and is not in a
cooldown window, where the list is overridden to "冷却期") — the
segmenter assigns "超级VIP", whatever the other segmentation inputs are. -/
theorem classify_superVip_ten_orders (potentialLabel : String)
    (daysSince : Option ℤ) (netTotal : ℚ) (tagsText : String)
    (priorityScore : ℚ) (longTermThreshold : ℤ)
    (hnospike : containsSub "退货激增" tagsText = false) :
    superVipBoost 10 (returnRateOf 10 1) = 80
    ∧ classifyCustomerList 10 (returnRateOf 10 1) potentialLabel daysSince
        netTotal tagsText priorityScore longTermThreshold = "超级VIP" := by
  have hrr : returnRateOf 10 1 = some (1 / 10) := by
    unfold returnRateOf
    norm_num
  constructor
  · rw [hrr]
    unfold superVipBoost rrNoneOrLt
    norm_num
  · rw [hrr]
    unfold classifyCustomerList rrSomeGt rrNoneOrLt
    rw [hnospike]
    norm_num

/-- Witness for the amended C2, with an empty tag text. -/
theorem classify_superVip_ten_orders_witness :
    containsSub "退货激增" "" = false
    ∧ superVipBoost 10 (returnRateOf 10 1) = 80
    ∧ classifyCustomerList 10 (returnRateOf 10 1) "普通客户" (some 40) 3000
        "" 100 60 = "超级VIP" := by
  have hn : containsSub "退货激增" "" = false := by decide
  have h := classify_superVip_ten_orders "普通客户" (some 40) 3000 "" 100 60 hn
  exact ⟨hn, h.1, h.2⟩

/-- C5, counterexample: a customer with 5 orders, average order value
600 > 500 and return rate 0.12 < 0.15 is NOT flagged VIP: the VIP checks
form an `elif` chain on the order count, and the 5-orders tier demands a
return rate strictly below 0.1, never reaching the AOV > 500 rule. -/
theorem isVip_five_orders_counterexample :
    (3 : ℤ) ≤ 5 ∧ (600 : ℚ) > 500 ∧ (3 / 25 : ℚ) < 3 / 20
    ∧ isVip (some 5) (some (3 / 25)) 600 = false := by
  refine ⟨by norm_num, by norm_num, by norm_num, ?_⟩
  unfold isVip
  norm_num

/-- C5, amended: a customer with at least 3 orders, average order value
above 500 and return rate below 0.15 or unknown is flagged VIP — and the
VIP recency multipliers are applied instead of the golden-window curve —
when the order count is 3 or 4, or at least 7; with 5 or 6 orders the
`elif` chain instead demands a known return rate below 0.1 (the
AOV > 400 part then holds since AOV > 500). -/
theorem isVip_applies_vip_multiplier (o : ℤ) (returnRate : Option ℚ)
    (avgOrderValue : ℚ) (ds t : ℤ) (params : UpliftParams)
    (extraCeiling : Option ℚ)
    (h3 : 3 ≤ o) (haov : avgOrderValue > 500)
    (hrr : returnRate = none ∨ ∃ r, returnRate = some r ∧ r < 3 / 20)
    (htier : o ≤ 4 ∨ 7 ≤ o ∨ ∃ r, returnRate = some r ∧ r < 1 / 10)
    (ht : 0 < t) :
    isVip (some o) returnRate avgOrderValue = true
    ∧ estimateUplift (some ds) (some t) params extraCeiling (some o) returnRate
        avgOrderValue
      = max (effectiveFloor params (some o))
          (min (effectiveCeiling params extraCeiling (some o))
            ((params.base + max 0 ((ds : ℚ) / ((max t 1 : ℤ) : ℚ) - 1))
              * vipMultiplier ds)) := by
  have hvip : isVip (some o) returnRate avgOrderValue = true := by
    unfold isVip
    simp only []
    by_cases h7 : o ≥ 7
    · rw [if_pos h7]
      rcases hrr with rfl | ⟨r, rfl, hr⟩
      · rfl
      · simp only [decide_eq_true_eq]
        linarith
    · rw [if_neg h7]
      by_cases h5 : o ≥ 5
      · rw [if_pos h5]
        rcases htier with h4 | h7' | ⟨r, rfl, hr⟩
        · omega
        · omega
        · simp only [Bool.and_eq_true, decide_eq_true_eq]
          exact ⟨hr, by linarith⟩
      · have hcond : (decide (o ≥ 3) && decide (avgOrderValue > 500)) = true := by
          simp only [Bool.and_eq_true, decide_eq_true_eq]
          exact ⟨h3, haov⟩
        rw [if_neg h5, if_pos hcond]
        rcases hrr with rfl | ⟨r, rfl, hr⟩
        · rfl
        · simp only [decide_eq_true_eq]
          linarith
  refine ⟨hvip, ?_⟩
  unfold estimateUplift
  simp only []
  rw [if_neg (by omega : ¬ t ≤ 0), if_pos hvip]

/-- Witness for the amended C5: 3 orders, unknown return rate, AOV 600,
100 days since last order against a threshold of 50. -/
theorem isVip_applies_vip_multiplier_witness :
    (3 : ℤ) ≤ 3 ∧ (600 : ℚ) > 500 ∧ (0 : ℤ) < 50
    ∧ isVip (some 3) none 600 = true
    ∧ estimateUplift (some 100) (some 50) ⟨1 / 2, 1 / 10, 5⟩ none (some 3) none 600
      = max (effectiveFloor ⟨1 / 2, 1 / 10, 5⟩ (some 3))
          (min (effectiveCeiling ⟨1 / 2, 1 / 10, 5⟩ none (some 3))
            (((1 : ℚ) / 2 + max 0 ((100 : ℚ) / ((max 50 1 : ℤ) : ℚ) - 1))
              * vipMultiplier 100)) := by
  have h := isVip_applies_vip_multiplier 3 none 600 100 50 ⟨1 / 2, 1 / 10, 5⟩ none
    (by norm_num) (by norm_num) (Or.inl rfl) (Or.inl (by norm_num)) (by norm_num)
  exact ⟨by norm_num, by norm_num, by norm_num, h.1, h.2⟩

/-- C4, counterexample: with `peak_boost = 30.001` an eligible customer
sitting exactly at the window center gets `round(30.001 × e⁰, 2) = 30.0`,
which is not `peak_boost` — the code rounds the Gaussian value to two
decimals before returning it.  (`fun _ => 1` is admissible for the
exponential here because only `exp 0`, which is exactly `1`, is used.) -/
theorem timingBoost_center_counterexample :
    calculateTimingBoost (fun _ => 1) (some 40) (some 40) 3 [] none
        ⟨true, 1 / 5, 30001 / 1000, 2, 0, 2⟩ = 30
    ∧ (30 : ℚ) ≠ 30001 / 1000 := by
  constructor
  · unfold calculateTimingBoost exchangeCount rrSomeGt
    norm_num [round2, round_eq]
  · norm_num

/-- C4, amended: for an eligible customer (feature enabled, days-since
and personal cycle defined, at least `min_orders` orders, no
exchange-type detail lines, return rate not above `max_return_rate`), the
timing boost is exactly 0 whenever `days_since` lies strictly outside
`[cycle×(1−w), cycle×(1+w)]`, and at `days_since = cycle` it attains
`peak_boost` rounded to two decimals (hence `peak_boost` itself whenever
`peak_boost` is a two-decimal value, e.g. the default 30.0).  The
exponential only enters through `exp 0 = 1`. -/
theorem timingBoost_boundary (expF : ℚ → ℚ) (p : TimingParams) (orders : ℕ)
    (details : List OrderDetail) (returnRate : Option ℚ) (cyc : ℚ) (ds : ℤ)
    (henabled : p.enabled = true)
    (hmin : p.minOrders ≤ (orders : ℤ))
    (hex : exchangeCount details = 0)
    (hrr : rrSomeGt returnRate p.maxReturnRate = false)
    (hcyc : 0 < cyc) (hw : 0 ≤ p.windowPercentage)
    (hexp : expF 0 = 1) :
    ((ds : ℚ) < cyc * (1 - p.windowPercentage)
        ∨ (ds : ℚ) > cyc * (1 + p.windowPercentage) →
      calculateTimingBoost expF (some ds) (some cyc) orders details returnRate p = 0)
    ∧ ((ds : ℚ) = cyc →
      calculateTimingBoost expF (some ds) (some cyc) orders details returnRate p
        = round2 p.peakBoost) := by
  unfold calculateTimingBoost
  rw [henabled, hex, hrr]
  simp only [Bool.not_true, Bool.false_eq_true, if_false]
  simp only [Nat.cast_zero, sub_zero]
  rw [if_neg (by omega : ¬ (orders : ℤ) < p.minOrders),
    if_neg (by omega : ¬ (orders : ℤ) < p.minOrders)]
  simp only [gt_iff_lt, lt_irrefl, if_false]
  constructor
  · intro hout
    rw [if_pos]
    rcases hout with hlt | hgt
    · exact Or.inl (by ring_nf; ring_nf at hlt; linarith)
    · exact Or.inr (by ring_nf; ring_nf at hgt; linarith)
  · intro hcenter
    rw [hcenter]
    have hrad : 0 ≤ cyc * p.windowPercentage := by positivity
    rw [if_neg (by push_neg; constructor <;> linarith)]
    rw [sub_self, abs_zero]
    have harg : ∀ nd : ℚ, nd = 0 → -p.gaussianK * nd ^ 2 = 0 := by
      intro nd hnd
      rw [hnd]
      ring
    split_ifs with hpos
    · rw [zero_div, harg 0 rfl, hexp, mul_one]
    · rw [harg 0 rfl, hexp, mul_one]

/-- Witness for the amended C4: default-like parameters (window ±20%,
peak 30, `min_orders` 2, zero max return rate), a 3-order customer with
no exchanges and unknown return rate, personal cycle 40: at
`days_since = 60 > 48` the boost is 0, and at `days_since = 40` it is
`round2 30 = 30`. -/
theorem timingBoost_boundary_witness :
    calculateTimingBoost (fun _ => 1) (some 60) (some 40) 3 [] none
        ⟨true, 1 / 5, 30, 2, 0, 2⟩ = 0
    ∧ calculateTimingBoost (fun _ => 1) (some 40) (some 40) 3 [] none
        ⟨true, 1 / 5, 30, 2, 0, 2⟩ = round2 30
    ∧ round2 30 = 30 := by
  have h60 := timingBoost_boundary (fun _ => 1) ⟨true, 1 / 5, 30, 2, 0, 2⟩ 3 [] none 40 60
    rfl (by norm_num) (by decide) rfl (by norm_num) (by norm_num) rfl
  have h40 := timingBoost_boundary (fun _ => 1) ⟨true, 1 / 5, 30, 2, 0, 2⟩ 3 [] none 40 40
    rfl (by norm_num) (by decide) rfl (by norm_num) (by norm_num) rfl
  refine ⟨h60.1 (by norm_num), h40.2 (by norm_num), ?_⟩
  rw [round2_fix (3000 : ℤ) (by norm_num)]

/-- C1, counterexample: with configured bounds `priority_min = 0.004`,
`priority_max = 150` and an unweighted total of 0, the clamped value is
0.004 but the emitted score — the clamped value rounded to two
decimals — is 0.0, strictly below the lower bound: rounding after
clamping can leave the configured range when a bound is not a
two-decimal value. -/
theorem finalPriority_clamp_counterexample :
    finalPriorityScore (1 / 250) 150 0 1 0 = 0
    ∧ ¬ ((priorityBounds (1 / 250) 150).1 ≤ finalPriorityScore (1 / 250) 150 0 1 0) := by
  have hval : finalPriorityScore (1 / 250) 150 0 1 0 = 0 := by
    unfold finalPriorityScore clampedPriority priorityBounds
    norm_num [round2, round_eq]
  refine ⟨hval, ?_⟩
  rw [hval]
  unfold priorityBounds
  norm_num

/-- C1, amended: for every customer the clamped value
`min(upper, max(lower, base×confidence + total_boost))` lies in the
normalized configured range `[lower, upper]`, and the emitted score is
that value rounded to two decimals, which still lies in the range
whenever both configured bounds are themselves two-decimal values (as
the defaults −50.0 and 150.0 are); a non-two-decimal bound can be
overshot by the rounding by strictly less than 0.005. -/
theorem finalPriority_in_bounds (priorityMin priorityMax preWeight ordersWeight totalBoost : ℚ)
    (hmin2 : round2 priorityMin = priorityMin)
    (hmax2 : round2 priorityMax = priorityMax) :
    ((priorityBounds priorityMin priorityMax).1
        ≤ clampedPriority priorityMin priorityMax preWeight ordersWeight totalBoost
      ∧ clampedPriority priorityMin priorityMax preWeight ordersWeight totalBoost
        ≤ (priorityBounds priorityMin priorityMax).2)
    ∧ ((priorityBounds priorityMin priorityMax).1
        ≤ finalPriorityScore priorityMin priorityMax preWeight ordersWeight totalBoost
      ∧ finalPriorityScore priorityMin priorityMax preWeight ordersWeight totalBoost
        ≤ (priorityBounds priorityMin priorityMax).2) := by
  have hlohi : (priorityBounds priorityMin priorityMax).1
      ≤ (priorityBounds priorityMin priorityMax).2 := min_le_max
  have hlo : (priorityBounds priorityMin priorityMax).1
      ≤ clampedPriority priorityMin priorityMax preWeight ordersWeight totalBoost := by
    unfold clampedPriority
    exact le_min hlohi (le_max_left _ _)
  have hhi : clampedPriority priorityMin priorityMax preWeight ordersWeight totalBoost
      ≤ (priorityBounds priorityMin priorityMax).2 := min_le_left _ _
  have hrlo : round2 (priorityBounds priorityMin priorityMax).1
      = (priorityBounds priorityMin priorityMax).1 := by
    unfold priorityBounds
    rcases min_choice priorityMin priorityMax with h | h <;> simp only [h, hmin2, hmax2]
  have hrhi : round2 (priorityBounds priorityMin priorityMax).2
      = (priorityBounds priorityMin priorityMax).2 := by
    unfold priorityBounds
    rcases max_choice priorityMin priorityMax with h | h <;> simp only [h, hmin2, hmax2]
  refine ⟨⟨hlo, hhi⟩, ?_, ?_⟩
  · calc (priorityBounds priorityMin priorityMax).1
        = round2 (priorityBounds priorityMin priorityMax).1 := hrlo.symm
      _ ≤ finalPriorityScore priorityMin priorityMax preWeight ordersWeight totalBoost :=
        round2_mono hlo
  · calc finalPriorityScore priorityMin priorityMax preWeight ordersWeight totalBoost
        ≤ round2 (priorityBounds priorityMin priorityMax).2 := round2_mono hhi
      _ = (priorityBounds priorityMin priorityMax).2 := hrhi

/-- Witness for the amended C1 at the config defaults
`priority_min = −50`, `priority_max = 150` and an unweighted total of
1000, which clamps to 150. -/
theorem finalPriority_in_bounds_witness :
    round2 (-50) = (-50 : ℚ)
    ∧ round2 150 = (150 : ℚ)
    ∧ (((priorityBounds (-50) 150).1 ≤ clampedPriority (-50) 150 1000 1 0
        ∧ clampedPriority (-50) 150 1000 1 0 ≤ (priorityBounds (-50) 150).2)
      ∧ ((priorityBounds (-50) 150).1 ≤ finalPriorityScore (-50) 150 1000 1 0
        ∧ finalPriorityScore (-50) 150 1000 1 0 ≤ (priorityBounds (-50) 150).2)) := by
  have h1 : round2 (-50) = (-50 : ℚ) := round2_fix (-5000) (by norm_num)
  have h2 : round2 150 = (150 : ℚ) := round2_fix 15000 (by norm_num)
  exact ⟨h1, h2, finalPriority_in_bounds (-50) 150 1000 1 0 h1 h2⟩

/-- C6: with `cooldown_days = 7`, cooldown scope "action" and a contact
log showing last contact 3 days before today, a customer that triggers
inclusion (and whose contact record is not explicitly marked no-reply) is
demoted to `customer_list = "冷却期"` and still lands in `action_rows`:
the conclusion holds for arbitrary values of every input of the
recent-buyer, high-return, single-order and presumed-lost filters, so
none of them is applied to a cooldown customer. -/
theorem cooldown_action_scope_demotes (today : ℤ) (replyFlag : Option Bool)
    (tags : List String) (anniversaryOnly anniversaryMatch : Bool)
    (potentialLabel : String) (priorityScore : ℚ) (orders : ℕ)
    (growthType : String) (daysSince : Option ℤ) (excludeRecentDays : ℤ)
    (allowHighReturn : Bool) (returnRate : Option ℚ) (singleOrderOk : Bool)
    (longTermThreshold : ℤ) (netTotal : ℚ)
    (hinc : includeInAction tags anniversaryOnly anniversaryMatch potentialLabel
      priorityScore orders growthType = true)
    (hreply : replyFlag ≠ some false) :
    actionDecision "action" 7 (some (today - 3)) today replyFlag tags
        anniversaryOnly anniversaryMatch potentialLabel priorityScore orders
        growthType daysSince excludeRecentDays allowHighReturn returnRate
        singleOrderOk longTermThreshold netTotal = some "冷却期" := by
  have hbeq : (replyFlag == some false) = false := by
    rcases replyFlag with _ | b
    · rfl
    · cases b
      · exact absurd rfl hreply
      · rfl
  have hdelta : today - (today - 3) = 3 := by ring
  have hscope : (("action" : String) == "all") = false := by decide
  unfold actionDecision actionDecisionCore
  rw [hinc]
  simp only [hscope, Bool.false_and, Bool.false_eq_true, if_false, Bool.not_true,
    hbeq, Option.isSome_some, Bool.and_false, hdelta]
  norm_num

/-- Witness for C6: a star-label customer contacted 3 days ago, shown to
stay in the worklist as "冷却期" although every other filter would have
dropped them (bought 0 days ago with a 30-day exclusion window, return
rate 0.6 ≥ 0.49, a single order failing the single-order policy, and
idleness beyond 3× the long-term threshold — the label is kept non-star
irrelevant here since stars bypass that filter; we use a non-triggering
label for the presumed-lost filter via `daysSince`). -/
theorem cooldown_action_scope_demotes_witness :
    includeInAction [] false false "明星客户" 0 1 "" = true
    ∧ (none : Option Bool) ≠ some false
    ∧ actionDecision "action" 7 (some (100 - 3)) 100 none [] false false
        "明星客户" 0 1 "" (some 0) 30 false (some (3 / 5)) false 10 0
        = some "冷却期" := by
  have hinc : includeInAction [] false false "明星客户" 0 1 "" = true := by decide
  have hreply : (none : Option Bool) ≠ some false := by simp
  exact ⟨hinc, hreply, cooldown_action_scope_demotes 100 none [] false false
    "明星客户" 0 1 "" (some 0) 30 false (some (3 / 5)) false 10 0 hinc hreply⟩

theorem keyLE_specOrder {a b : ActionRow}
    (_ha : ∀ r, a.returnRate = some r → r ≤ 1)
    (hb : ∀ r, b.returnRate = some r → r ≤ 1)
    (hk : keyLE a b) : specOrder a b := by
  unfold keyLE lexLe4 actionSortKey at hk
  unfold specOrder
  simp only at hk
  rcases hk with h1 | ⟨e1, hk⟩
  · exact Or.inl (by linarith [neg_lt_neg_iff.mp h1])
  · refine Or.inr ⟨by linarith [neg_inj.mp e1], ?_⟩
    rcases hk with h2 | ⟨e2, hk⟩
    · have : (b.orders : ℚ) < (a.orders : ℚ) := by linarith
      exact Or.inl (by exact_mod_cast this)
    · have heo : a.orders = b.orders := by
        have : (a.orders : ℚ) = (b.orders : ℚ) := by linarith [neg_inj.mp e2]
        exact_mod_cast this
      refine Or.inr ⟨heo, ?_⟩
      rcases hk with h3 | ⟨e3, h4⟩
      · left
        rcases hra : a.returnRate with _ | r
        · rcases hrb : b.returnRate with _ | s
          · rw [hra, hrb] at h3
            exact absurd h3 (lt_irrefl _)
          · rw [hra, hrb] at h3
            unfold rateSortValue at h3
            simp only at h3
            have hs1 := hb s hrb
            exact absurd h3 (by push_neg; linarith)
        · rcases hrb : b.returnRate with _ | s
          · trivial
          · rw [hra, hrb] at h3
            unfold rateSortValue at h3
            simp only at h3
            exact h3
      · right
        constructor
        · exact e3
        · linarith [neg_le_neg_iff.mp h4]

/-- C9: the `action_rows` ordering — after sorting with
`action_sort_key`, consecutive rows always satisfy: priority score
descending, ties broken by order count descending, then return rate
ascending with an undefined rate after every defined one, then average
order value descending.  The hypothesis that every defined return rate is
at most 1 is an invariant of the program (`returnRateOf` caps rates at
1), and is what keeps the 1.1 sentinel of `action_sort_key` behind every
real rate. -/
theorem sortActionRows_ordered (rows : List ActionRow)
    (h : ∀ e ∈ rows, ∀ r, e.returnRate = some r → r ≤ 1) :
    List.Pairwise specOrder (sortActionRows rows) := by
  have hs : List.Pairwise keyLE (sortActionRows rows) :=
    List.sorted_insertionSort keyLE rows
  have hperm : ∀ e, e ∈ sortActionRows rows → e ∈ rows := by
    intro e he
    exact (List.perm_insertionSort keyLE rows).mem_iff.mp he
  refine List.Pairwise.imp_of_mem ?_ hs
  intro a b hma hmb hk
  exact keyLE_specOrder (h a (hperm a hma)) (h b (hperm b hmb)) hk

/-- Witness for C9: two rows whose defined return rate is at most 1. -/
theorem sortActionRows_ordered_witness :
    (∀ e ∈ [(⟨10, 2, some (1 / 2), some 100⟩ : ActionRow), ⟨50, 1, none, none⟩],
      ∀ r, e.returnRate = some r → r ≤ 1)
    ∧ List.Pairwise specOrder
        (sortActionRows [⟨10, 2, some (1 / 2), some 100⟩, ⟨50, 1, none, none⟩]) := by
  have h : ∀ e ∈ [(⟨10, 2, some (1 / 2), some 100⟩ : ActionRow), ⟨50, 1, none, none⟩],
      ∀ r, e.returnRate = some r → r ≤ 1 := by
    intro e he r hr
    simp only [List.mem_cons, List.not_mem_nil, or_false] at he
    rcases he with rfl | rfl
    · simp only [Option.some.injEq] at hr
      rw [← hr]
      norm_num
    · simp at hr
  exact ⟨h, sortActionRows_ordered _ h⟩

end CustomerAlerts
